import Mathlib

deriving instance DecidableEq for Except

/-!
Shallow embedding of the UDP polling client in `src/backend.rs`
(`ViewerBackend`): connection setup, the rate-limited `poll` cycle with
its one-time init handshake, big-endian response decoding, the cached
`read` accessor, and the Display/Debug formatting that delegates to it.

Modelling conventions:
* Machine integers are `Nat`; the `u16` produced by `u16::from_be_bytes`
  is reduced `% 65536` and the `u32` poll counter `% 4294967296`.
* `Instant` timestamps are `Nat` time points; `Instant::elapsed()` is
  truncated subtraction `now - t` (an `Instant` never exceeds `now`).
* All socket operations are modelled by their outcomes, supplied in a
  `NetEnv` record: each field is the `Except`-value the corresponding
  syscall would produce if `poll` reaches it.  `poll` additionally
  returns the list of network actions it actually performed, so that
  "no I/O happens" and "exactly one init request" are provable facts.
* Fallible Rust functions returning `Result` become `Except`.
-/

namespace GaugeViewer

/-- `POLL_DELAY`: the 1 ms minimum interval between network polls
(`Duration::from_millis(1)` in the source), in the same abstract time
unit as all timestamps. -/
def POLL_DELAY : Nat := 1

/-- The four analog channel readings (`struct AnalogValues`,
`pub a0..a3 : u16`). -/
structure AnalogValues where
  a0 : Nat
  a1 : Nat
  a2 : Nat
  a3 : Nat
deriving DecidableEq, Repr

/-- `enum ViewerBackendError`: socket failures carry the underlying
I/O error (modelled by its message string), parser failures a reason. -/
inductive ViewerBackendError where
  | SocketError (e : String)
  | ParserError (s : String)
deriving DecidableEq, Repr

/-- The mutable state of `struct ViewerBackend`.  The `UdpSocket` field
carries no state relevant to the claims (its behaviour is supplied per
call through `NetEnv`), so it is not part of the record. -/
structure ViewerBackend where
  analog_vals : AnalogValues
  last_poll : Nat
  polled_amt : Nat
  started : Nat
  initialized : Bool
deriving DecidableEq, Repr

/-- Network actions `poll` can perform, in the order it performs them:
sending the `b"init"` datagram, sending the `b"poll"` datagram,
receiving on the socket, and re-`connect`ing the default destination. -/
inductive NetAction where
  | sendInit
  | sendPoll
  | recvAct
  | reconnectAct
deriving DecidableEq, Repr

/-- Outcomes the network would deliver to each socket call `poll` might
make: the current instant, the result of the init `send_to`, of the poll
`send_to`, of `recv` (on success, the datagram's bytes), and of the
reconnect `connect`. -/
structure NetEnv where
  now : Nat
  initSend : Except String Unit
  pollSend : Except String Unit
  recvRes : Except String (List Nat)
  reconnectRes : Except String Unit
deriving Repr

/-- What one call to `poll` produces: the returned `Result`, the
post-call backend state, and the network actions performed. -/
structure PollOut where
  result : Except ViewerBackendError AnalogValues
  state : ViewerBackend
  actions : List NetAction
deriving Repr

/-- `ViewerBackend::connect()`: bind the socket (outcome supplied), then
construct the state with the all-zero reading, `last_poll` and `started`
at the construction instant, zero poll count, uninitialized. -/
def ViewerBackend.connect (now : Nat) (bindRes : Except String Unit) :
    Except ViewerBackendError ViewerBackend :=
  match bindRes with
  | .error e => .error (.SocketError e)
  | .ok _ =>
    .ok { analog_vals := ⟨0, 0, 0, 0⟩
          last_poll := now
          polled_amt := 0
          started := now
          initialized := false }

/-- `ViewerBackend::read()`: borrows `&self` (so it cannot mutate any
state — modelled by being a plain function of the state); errors with
"no values read yet" exactly on the all-zero pattern, otherwise returns
the cached reading. -/
def ViewerBackend.read (self : ViewerBackend) :
    Except ViewerBackendError AnalogValues :=
  if self.analog_vals = ⟨0, 0, 0, 0⟩ then
    .error (.ParserError "no values read yet")
  else
    .ok self.analog_vals

/-- `u16::from_be_bytes([hi, lo])` on byte values: big-endian pair to a
16-bit value. -/
def u16_from_be_bytes (hi lo : Nat) : Nat :=
  (256 * hi + lo) % 65536

/-- The receive buffer `let mut buf = [0u8; 8]` after `recv` copied the
datagram into its front: `recv` writes `min (payload.length) 8` bytes,
the remainder keeps its zero initialisation.  The result always has
length 8, which is why the indexed reads in the decode loop can never be
out of range. -/
def fillBuf (payload : List Nat) : List Nat :=
  payload.take 8 ++ List.replicate (8 - (payload.take 8).length) 0

/-- The decode loop `for i in 0..4 { values[i] =
u16::from_be_bytes([buf[offs], buf[offs+1]]); offs += 2 }` followed by
the `AnalogValues` construction, unrolled over the 8-byte buffer. -/
def decodeResponse (buf : List Nat) : AnalogValues :=
  { a0 := u16_from_be_bytes (buf.getD 0 0) (buf.getD 1 0)
    a1 := u16_from_be_bytes (buf.getD 2 0) (buf.getD 3 0)
    a2 := u16_from_be_bytes (buf.getD 4 0) (buf.getD 5 0)
    a3 := u16_from_be_bytes (buf.getD 6 0) (buf.getD 7 0) }

/-- The init phase of `poll`: when not yet initialized, send `b"init"`;
a send failure propagates via `?` before `self.initialized = true` runs,
so the flag is only set on success. Returns the updated state (or the
error) and the actions performed by this phase. -/
def ViewerBackend.pollInit (self : ViewerBackend) (env : NetEnv) :
    Except ViewerBackendError ViewerBackend × List NetAction :=
  if self.initialized then
    (.ok self, [])
  else
    match env.initSend with
    | .error e => (.error (.SocketError e), [.sendInit])
    | .ok _ => (.ok { self with initialized := true }, [.sendInit])

/-- The network phase of `poll` after init: send `b"poll"`; `recv`; on a
receive failure, re-`connect` the default destination — a reconnect
failure propagates via `?` (its own error), a reconnect success falls
through to `Err(...)` re-raising the original receive error; on a
received datagram, decode the (zero-padded) 8-byte buffer and commit the
reading, the timestamp and the incremented (wrapping `u32`) counter. -/
def ViewerBackend.pollNet (self : ViewerBackend) (env : NetEnv) : PollOut :=
  match env.pollSend with
  | .error e => ⟨.error (.SocketError e), self, [.sendPoll]⟩
  | .ok _ =>
    match env.recvRes with
    | .error e =>
      match env.reconnectRes with
      | .error e2 =>
        ⟨.error (.SocketError e2), self, [.sendPoll, .recvAct, .reconnectAct]⟩
      | .ok _ =>
        ⟨.error (.SocketError e), self, [.sendPoll, .recvAct, .reconnectAct]⟩
    | .ok payload =>
      let vals := decodeResponse (fillBuf payload)
      ⟨.ok vals,
       { self with
          analog_vals := vals
          last_poll := env.now
          polled_amt := (self.polled_amt + 1) % 4294967296 },
       [.sendPoll, .recvAct]⟩

/-- `ViewerBackend::poll()`: return the cached reading when the minimum
interval has not elapsed (no I/O), otherwise run the init phase then the
poll/receive/decode/commit sequence. -/
def ViewerBackend.poll (self : ViewerBackend) (env : NetEnv) : PollOut :=
  if env.now - self.last_poll < POLL_DELAY then
    ⟨.ok self.analog_vals, self, []⟩
  else
    match self.pollInit env with
    | (.error e, acts) => ⟨.error e, self, acts⟩
    | (.ok self1, acts) =>
      let out := self1.pollNet env
      ⟨out.result, out.state, acts ++ out.actions⟩

/-- Repeated `poll` calls (the backend thread's loop in `main.rs`):
thread the state through a list of per-call network environments,
collecting each call's action list. -/
def ViewerBackend.pollTrace (self : ViewerBackend) :
    List NetEnv → ViewerBackend × List (List NetAction)
  | [] => (self, [])
  | env :: rest =>
    let out := self.poll env
    let next := out.state.pollTrace rest
    (next.1, out.actions :: next.2)

/-- `impl Display for ViewerBackend`: call `read`; on error convert to
`fmt::Error` (a unit value); on success write the fixed format.  Takes
`&self`, so it mutates nothing — a plain function of the state. The
produced string is the model of what `write!` emits. -/
def ViewerBackend.fmtDisplay (self : ViewerBackend) : Except Unit String :=
  match self.read with
  | .error _ => .error ()
  | .ok vals =>
    .ok ("(a0: " ++ toString vals.a0 ++ ", a1: " ++ toString vals.a1 ++
         ", a2: " ++ toString vals.a2 ++ ", a3: " ++ toString vals.a3 ++ ")")

/-- `impl Debug for ViewerBackend`: delegates to the Display
implementation. -/
def ViewerBackend.fmtDebug (self : ViewerBackend) : Except Unit String :=
  self.fmtDisplay



/-- Case analysis of `read`: it errors exactly on the all-zero sentinel
and otherwise returns the cached reading. -/
theorem read_spec (s : ViewerBackend) :
    (s.analog_vals = ⟨0, 0, 0, 0⟩ ∧
      s.read = Except.error (ViewerBackendError.ParserError "no values read yet")) ∨
    (s.analog_vals ≠ ⟨0, 0, 0, 0⟩ ∧ s.read = Except.ok s.analog_vals) := by
  unfold ViewerBackend.read
  by_cases h : s.analog_vals = ⟨0, 0, 0, 0⟩ <;> simp [h]

/-- C3: when the elapsed time since the last poll timestamp is strictly
below the minimum poll interval, `poll()` returns the cached reading as
a success, performs no network action, and leaves the state unchanged. -/
theorem C3_rate_limited_poll_is_pure_cache_hit (s : ViewerBackend) (env : NetEnv)
    (h : env.now - s.last_poll < POLL_DELAY) :
    s.poll env = ⟨Except.ok s.analog_vals, s, []⟩ := by
  simp [ViewerBackend.poll, h]

/-- Witness for C3 at a concrete state and environment. -/
theorem C3_rate_limited_poll_is_pure_cache_hit_witness :
    ViewerBackend.poll ⟨⟨5, 6, 7, 8⟩, 10, 2, 0, true⟩
        ⟨10, Except.ok (), Except.ok (), Except.ok [9, 9, 9, 9, 9, 9, 9, 9], Except.ok ()⟩
      = ⟨Except.ok ⟨5, 6, 7, 8⟩, ⟨⟨5, 6, 7, 8⟩, 10, 2, 0, true⟩, []⟩ :=
  C3_rate_limited_poll_is_pure_cache_hit _ _ (by decide)

/-- C4: decoding an 8-byte buffer yields the four big-endian unsigned
16-bit fields `a_i = 256*b[2i] + b[2i+1]`, in order a0..a3; such a
buffer passes through the zero-padding untouched. -/
theorem C4_decode_is_big_endian_u16_quad (b0 b1 b2 b3 b4 b5 b6 b7 : Nat)
    (h0 : b0 < 256) (h1 : b1 < 256) (h2 : b2 < 256) (h3 : b3 < 256)
    (h4 : b4 < 256) (h5 : b5 < 256) (h6 : b6 < 256) (h7 : b7 < 256) :
    fillBuf [b0, b1, b2, b3, b4, b5, b6, b7] = [b0, b1, b2, b3, b4, b5, b6, b7] ∧
    decodeResponse [b0, b1, b2, b3, b4, b5, b6, b7]
      = ⟨256 * b0 + b1, 256 * b2 + b3, 256 * b4 + b5, 256 * b6 + b7⟩ := by
  refine ⟨by simp [fillBuf], ?_⟩
  unfold decodeResponse u16_from_be_bytes
  simp only [List.getD_cons_zero, List.getD_cons_succ, AnalogValues.mk.injEq]
  exact ⟨Nat.mod_eq_of_lt (by omega), Nat.mod_eq_of_lt (by omega),
         Nat.mod_eq_of_lt (by omega), Nat.mod_eq_of_lt (by omega)⟩

/-- Witness for C4 at concrete bytes. -/
theorem C4_decode_is_big_endian_u16_quad_witness :
    fillBuf [1, 2, 3, 4, 5, 6, 7, 255] = [1, 2, 3, 4, 5, 6, 7, 255] ∧
    decodeResponse [1, 2, 3, 4, 5, 6, 7, 255]
      = ⟨256 * 1 + 2, 256 * 3 + 4, 256 * 5 + 6, 256 * 7 + 255⟩ :=
  C4_decode_is_big_endian_u16_quad 1 2 3 4 5 6 7 255
    (by decide) (by decide) (by decide) (by decide)
    (by decide) (by decide) (by decide) (by decide)

/-- C5: `read()` fails with the not-yet-polled error exactly when the
cached reading is the all-zero sentinel, and otherwise returns the
cached reading unchanged; being a function of `&self` it mutates
nothing. -/
theorem C5_read_fails_iff_sentinel (s : ViewerBackend) :
    (s.read = Except.error (ViewerBackendError.ParserError "no values read yet")
      ↔ s.analog_vals = ⟨0, 0, 0, 0⟩) ∧
    (s.analog_vals ≠ ⟨0, 0, 0, 0⟩ → s.read = Except.ok s.analog_vals) := by
  rcases read_spec s with ⟨h, hr⟩ | ⟨h, hr⟩ <;> simp [h, hr]

/-- Witness for C5: both sides of the dichotomy at concrete states. -/
theorem C5_read_fails_iff_sentinel_witness :
    (ViewerBackend.read ⟨⟨0, 0, 0, 0⟩, 0, 0, 0, false⟩
      = Except.error (ViewerBackendError.ParserError "no values read yet")) ∧
    (ViewerBackend.read ⟨⟨7, 0, 0, 0⟩, 0, 0, 0, false⟩ = Except.ok ⟨7, 0, 0, 0⟩) :=
  ⟨(C5_read_fails_iff_sentinel ⟨⟨0, 0, 0, 0⟩, 0, 0, 0, false⟩).1.mpr rfl,
   (C5_read_fails_iff_sentinel ⟨⟨7, 0, 0, 0⟩, 0, 0, 0, false⟩).2 (by decide)⟩

/-- C9: a successful `connect()` sets the last-poll timestamp to the
construction instant and the cached reading to the all-zero sentinel,
so a `poll()` within the minimum interval of construction returns the
sentinel as a success with no network action. -/
theorem C9_poll_within_interval_of_construction (now : Nat) (s : ViewerBackend)
    (env : NetEnv)
    (hc : ViewerBackend.connect now (Except.ok ()) = Except.ok s)
    (henv : env.now - now < POLL_DELAY) :
    s.last_poll = now ∧ s.analog_vals = ⟨0, 0, 0, 0⟩ ∧
    s.poll env = ⟨Except.ok ⟨0, 0, 0, 0⟩, s, []⟩ := by
  unfold ViewerBackend.connect at hc
  have hs := Except.ok.inj hc
  subst hs
  exact ⟨rfl, rfl, by simp [ViewerBackend.poll, henv]⟩

/-- Witness for C9 at a concrete construction instant. -/
theorem C9_poll_within_interval_of_construction_witness :
    (⟨⟨0, 0, 0, 0⟩, 42, 0, 42, false⟩ : ViewerBackend).last_poll = 42 ∧
    (⟨⟨0, 0, 0, 0⟩, 42, 0, 42, false⟩ : ViewerBackend).analog_vals = ⟨0, 0, 0, 0⟩ ∧
    ViewerBackend.poll ⟨⟨0, 0, 0, 0⟩, 42, 0, 42, false⟩
        ⟨42, Except.ok (), Except.ok (), Except.ok [1, 2, 3, 4, 5, 6, 7, 8], Except.ok ()⟩
      = ⟨Except.ok ⟨0, 0, 0, 0⟩, ⟨⟨0, 0, 0, 0⟩, 42, 0, 42, false⟩, []⟩ :=
  C9_poll_within_interval_of_construction 42 _ _ rfl (by decide)

/-- C10: Display formatting fails exactly when the cached reading is the
all-zero sentinel (exactly when `read()` fails); otherwise it produces
the fixed "(a0: _, a1: _, a2: _, a3: _)" text; Debug delegates to
Display; both take `&self` and mutate nothing. -/
theorem C10_display_error_iff_sentinel (s : ViewerBackend) :
    (s.fmtDisplay = Except.error () ↔ s.analog_vals = ⟨0, 0, 0, 0⟩) ∧
    (s.fmtDisplay = Except.error ()
      ↔ s.read = Except.error (ViewerBackendError.ParserError "no values read yet")) ∧
    (s.analog_vals ≠ ⟨0, 0, 0, 0⟩ →
      s.fmtDisplay = Except.ok ("(a0: " ++ toString s.analog_vals.a0 ++
        ", a1: " ++ toString s.analog_vals.a1 ++ ", a2: " ++ toString s.analog_vals.a2 ++
        ", a3: " ++ toString s.analog_vals.a3 ++ ")")) ∧
    s.fmtDebug = s.fmtDisplay := by
  unfold ViewerBackend.fmtDebug ViewerBackend.fmtDisplay
  rcases read_spec s with ⟨h, hr⟩ | ⟨h, hr⟩ <;> simp [h, hr]

/-- Witness for C10 at concrete states on both sides of the dichotomy. -/
theorem C10_display_error_iff_sentinel_witness :
    ViewerBackend.fmtDisplay ⟨⟨0, 0, 0, 0⟩, 0, 0, 0, false⟩ = Except.error () ∧
    ViewerBackend.fmtDisplay ⟨⟨10, 20, 30, 40⟩, 0, 0, 0, false⟩
      = Except.ok "(a0: 10, a1: 20, a2: 30, a3: 40)" :=
  ⟨(C10_display_error_iff_sentinel ⟨⟨0, 0, 0, 0⟩, 0, 0, 0, false⟩).1.mpr rfl,
   by
    have h := (C10_display_error_iff_sentinel ⟨⟨10, 20, 30, 40⟩, 0, 0, 0, false⟩).2.2.1
      (by decide)
    simpa using h⟩

/-- C1 counterexample: with receive failure "recv boom" and reconnect
failure "reconnect boom", `poll` returns the reconnect's own failure,
not the original receive failure — refuting "the reconnect's own
failure is not surfaced". -/
theorem C1_counterexample :
    (ViewerBackend.poll ⟨⟨1, 2, 3, 4⟩, 0, 3, 0, true⟩
        ⟨5, Except.ok (), Except.ok (), Except.error "recv boom",
         Except.error "reconnect boom"⟩).result
      = Except.error (ViewerBackendError.SocketError "reconnect boom") ∧
    (ViewerBackend.poll ⟨⟨1, 2, 3, 4⟩, 0, 3, 0, true⟩
        ⟨5, Except.ok (), Except.ok (), Except.error "recv boom",
         Except.error "reconnect boom"⟩).result
      ≠ Except.error (ViewerBackendError.SocketError "recv boom") :=
  ⟨rfl, by decide⟩

/-- C1 (amended): a receive failure triggers exactly one reconnect
attempt; if the reconnect succeeds, `poll` returns the original receive
failure; if the reconnect fails, `poll` returns the reconnect's own
failure instead. -/
theorem C1_receive_failure_one_reconnect (s : ViewerBackend) (env : NetEnv)
    (e : String)
    (hrate : ¬ (env.now - s.last_poll < POLL_DELAY))
    (hinit : s.initialized = true ∨ env.initSend = Except.ok ())
    (hsend : env.pollSend = Except.ok ())
    (hrecv : env.recvRes = Except.error e) :
    (s.poll env).actions.count NetAction.reconnectAct = 1 ∧
    (env.reconnectRes = Except.ok () →
      (s.poll env).result = Except.error (ViewerBackendError.SocketError e)) ∧
    (∀ e2, env.reconnectRes = Except.error e2 →
      (s.poll env).result = Except.error (ViewerBackendError.SocketError e2)) := by
  obtain ⟨n, ise, pse, rr, rc⟩ := env
  simp only at hsend hrecv hrate ⊢
  subst hsend
  subst hrecv
  rcases hinit with hinit | hinit
  · rcases rc with e2 | u <;>
      simp [ViewerBackend.poll, ViewerBackend.pollInit, ViewerBackend.pollNet,
            hrate, hinit, List.count_cons]
  · subst hinit
    rcases hi : s.initialized with _ | _ <;> rcases rc with e2 | u <;>
      simp [ViewerBackend.poll, ViewerBackend.pollInit, ViewerBackend.pollNet,
            hrate, hi, List.count_cons]

/-- Witness for C1 (amended) at a concrete state and environment with a
successful reconnect. -/
theorem C1_receive_failure_one_reconnect_witness :
    (ViewerBackend.poll ⟨⟨1, 2, 3, 4⟩, 0, 3, 0, true⟩
        ⟨5, Except.ok (), Except.ok (), Except.error "recv boom",
         Except.ok ()⟩).actions.count NetAction.reconnectAct = 1 ∧
    ((⟨5, Except.ok (), Except.ok (), Except.error "recv boom",
        Except.ok ()⟩ : NetEnv).reconnectRes = Except.ok () →
      (ViewerBackend.poll ⟨⟨1, 2, 3, 4⟩, 0, 3, 0, true⟩
          ⟨5, Except.ok (), Except.ok (), Except.error "recv boom",
           Except.ok ()⟩).result
        = Except.error (ViewerBackendError.SocketError "recv boom")) ∧
    (∀ e2, (⟨5, Except.ok (), Except.ok (), Except.error "recv boom",
        Except.ok ()⟩ : NetEnv).reconnectRes = Except.error e2 →
      (ViewerBackend.poll ⟨⟨1, 2, 3, 4⟩, 0, 3, 0, true⟩
          ⟨5, Except.ok (), Except.ok (), Except.error "recv boom",
           Except.ok ()⟩).result
        = Except.error (ViewerBackendError.SocketError e2)) :=
  C1_receive_failure_one_reconnect ⟨⟨1, 2, 3, 4⟩, 0, 3, 0, true⟩
    ⟨5, Except.ok (), Except.ok (), Except.error "recv boom", Except.ok ()⟩
    "recv boom" (by decide) (Or.inl rfl) rfl rfl

/-- C2 counterexample: a 4-byte payload (shorter than 8) does not yield
any decode error — `poll` succeeds, decoding the zero-padded buffer. -/
theorem C2_counterexample :
    ([1, 2, 3, 4] : List Nat).length < 8 ∧
    (ViewerBackend.poll ⟨⟨9, 9, 9, 9⟩, 0, 0, 0, true⟩
        ⟨5, Except.ok (), Except.ok (), Except.ok [1, 2, 3, 4],
         Except.ok ()⟩).result
      = Except.ok ⟨258, 772, 0, 0⟩ :=
  ⟨by decide, rfl⟩

/-- C2 (amended): a payload shorter than 8 bytes never causes an
out-of-range access because the receive buffer is a fixed 8-byte
zero-initialised array (its length is always 8); decoding always
succeeds, reading each unwritten trailing byte as zero — there is no
`Truncated` error. -/
theorem C2_short_payload_zero_padded_success (s : ViewerBackend) (env : NetEnv)
    (payload : List Nat)
    (hrate : ¬ (env.now - s.last_poll < POLL_DELAY))
    (hinit : s.initialized = true ∨ env.initSend = Except.ok ())
    (hsend : env.pollSend = Except.ok ())
    (hrecv : env.recvRes = Except.ok payload)
    (hshort : payload.length < 8) :
    (fillBuf payload).length = 8 ∧
    fillBuf payload = payload ++ List.replicate (8 - payload.length) 0 ∧
    (s.poll env).result = Except.ok (decodeResponse (fillBuf payload)) := by
  have htake : payload.take 8 = payload := List.take_of_length_le (le_of_lt hshort)
  refine ⟨by simp [fillBuf], by rw [fillBuf, htake], ?_⟩
  obtain ⟨n, ise, pse, rr, rc⟩ := env
  simp only at hsend hrecv hrate ⊢
  subst hsend
  subst hrecv
  rcases hinit with hinit | hinit
  · simp [ViewerBackend.poll, ViewerBackend.pollInit, ViewerBackend.pollNet,
          hrate, hinit]
  · subst hinit
    rcases hi : s.initialized with _ | _ <;>
      simp [ViewerBackend.poll, ViewerBackend.pollInit, ViewerBackend.pollNet,
            hrate, hi]

/-- Witness for C2 (amended) at a concrete 4-byte payload. -/
theorem C2_short_payload_zero_padded_success_witness :
    (fillBuf [1, 2, 3, 4]).length = 8 ∧
    fillBuf [1, 2, 3, 4] = [1, 2, 3, 4] ++ List.replicate (8 - ([1, 2, 3, 4] : List Nat).length) 0 ∧
    (ViewerBackend.poll ⟨⟨7, 7, 7, 7⟩, 0, 0, 0, true⟩
        ⟨5, Except.ok (), Except.ok (), Except.ok [1, 2, 3, 4],
         Except.ok ()⟩).result
      = Except.ok (decodeResponse (fillBuf [1, 2, 3, 4])) :=
  C2_short_payload_zero_padded_success ⟨⟨7, 7, 7, 7⟩, 0, 0, 0, true⟩
    ⟨5, Except.ok (), Except.ok (), Except.ok [1, 2, 3, 4], Except.ok ()⟩
    [1, 2, 3, 4] (by decide) (Or.inl rfl) rfl rfl (by decide)

/-- C8: a successful non-rate-limited `poll` commits, in the same call,
the freshly decoded reading, the current instant as last-poll timestamp,
and the poll counter incremented by one (wrapping as a `u32`); every
`poll` that returns an error leaves the cached reading unchanged. -/
theorem C8_success_commits_atomically_error_preserves
    (s : ViewerBackend) (env : NetEnv) :
    (∀ v, ¬ (env.now - s.last_poll < POLL_DELAY) →
      (s.poll env).result = Except.ok v →
      ∃ payload, env.recvRes = Except.ok payload ∧
        v = decodeResponse (fillBuf payload) ∧
        (s.poll env).state.analog_vals = v ∧
        (s.poll env).state.last_poll = env.now ∧
        (s.poll env).state.polled_amt = (s.polled_amt + 1) % 4294967296 ∧
        (s.polled_amt + 1 < 4294967296 →
          (s.poll env).state.polled_amt = s.polled_amt + 1)) ∧
    (∀ e, (s.poll env).result = Except.error e →
      (s.poll env).state.analog_vals = s.analog_vals) := by
  obtain ⟨n, ise, pse, rr, rc⟩ := env
  by_cases hrate : n - s.last_poll < POLL_DELAY
  · simp [ViewerBackend.poll, hrate]
  · rcases hi : s.initialized with _ | _ <;>
      rcases ise with e0 | u0 <;>
      rcases pse with e1 | u1 <;>
      rcases rr with e2 | payload <;>
      rcases rc with e3 | u3 <;>
      simp [ViewerBackend.poll, ViewerBackend.pollInit, ViewerBackend.pollNet,
            hrate, hi, Nat.mod_eq_of_lt]

/-- Witness for C8 at a concrete state and a fully successful
environment. -/
theorem C8_success_commits_atomically_error_preserves_witness :
    (∀ v, ¬ ((⟨5, Except.ok (), Except.ok (), Except.ok [0, 1, 0, 2, 0, 3, 0, 4],
          Except.ok ()⟩ : NetEnv).now
        - (⟨⟨9, 9, 9, 9⟩, 0, 6, 0, true⟩ : ViewerBackend).last_poll < POLL_DELAY) →
      (ViewerBackend.poll ⟨⟨9, 9, 9, 9⟩, 0, 6, 0, true⟩
          ⟨5, Except.ok (), Except.ok (), Except.ok [0, 1, 0, 2, 0, 3, 0, 4],
           Except.ok ()⟩).result = Except.ok v →
      ∃ payload, (⟨5, Except.ok (), Except.ok (),
          Except.ok [0, 1, 0, 2, 0, 3, 0, 4], Except.ok ()⟩ : NetEnv).recvRes
            = Except.ok payload ∧
        v = decodeResponse (fillBuf payload) ∧
        (ViewerBackend.poll ⟨⟨9, 9, 9, 9⟩, 0, 6, 0, true⟩
            ⟨5, Except.ok (), Except.ok (), Except.ok [0, 1, 0, 2, 0, 3, 0, 4],
             Except.ok ()⟩).state.analog_vals = v ∧
        (ViewerBackend.poll ⟨⟨9, 9, 9, 9⟩, 0, 6, 0, true⟩
            ⟨5, Except.ok (), Except.ok (), Except.ok [0, 1, 0, 2, 0, 3, 0, 4],
             Except.ok ()⟩).state.last_poll
          = (⟨5, Except.ok (), Except.ok (), Except.ok [0, 1, 0, 2, 0, 3, 0, 4],
              Except.ok ()⟩ : NetEnv).now ∧
        (ViewerBackend.poll ⟨⟨9, 9, 9, 9⟩, 0, 6, 0, true⟩
            ⟨5, Except.ok (), Except.ok (), Except.ok [0, 1, 0, 2, 0, 3, 0, 4],
             Except.ok ()⟩).state.polled_amt = (6 + 1) % 4294967296 ∧
        (6 + 1 < 4294967296 →
          (ViewerBackend.poll ⟨⟨9, 9, 9, 9⟩, 0, 6, 0, true⟩
              ⟨5, Except.ok (), Except.ok (), Except.ok [0, 1, 0, 2, 0, 3, 0, 4],
               Except.ok ()⟩).state.polled_amt = 6 + 1)) ∧
    (∀ e, (ViewerBackend.poll ⟨⟨9, 9, 9, 9⟩, 0, 6, 0, true⟩
          ⟨5, Except.ok (), Except.ok (), Except.ok [0, 1, 0, 2, 0, 3, 0, 4],
           Except.ok ()⟩).result = Except.error e →
      (ViewerBackend.poll ⟨⟨9, 9, 9, 9⟩, 0, 6, 0, true⟩
          ⟨5, Except.ok (), Except.ok (), Except.ok [0, 1, 0, 2, 0, 3, 0, 4],
           Except.ok ()⟩).state.analog_vals = ⟨9, 9, 9, 9⟩) :=
  C8_success_commits_atomically_error_preserves
    ⟨⟨9, 9, 9, 9⟩, 0, 6, 0, true⟩
    ⟨5, Except.ok (), Except.ok (), Except.ok [0, 1, 0, 2, 0, 3, 0, 4],
     Except.ok ()⟩

/-- C6 counterexample: a first successful poll commits the non-sentinel
reading (258, 772, 1286, 1800); a later successful poll commits the
all-zero reading, after which `read()` fails again — refuting "every
subsequent read() succeeds". -/
theorem C6_counterexample :
    (let s0 : ViewerBackend := ⟨⟨0, 0, 0, 0⟩, 0, 0, 0, false⟩
     let out1 := s0.poll
       ⟨5, Except.ok (), Except.ok (), Except.ok [1, 2, 3, 4, 5, 6, 7, 8],
        Except.ok ()⟩
     let out2 := out1.state.poll
       ⟨10, Except.ok (), Except.ok (), Except.ok [0, 0, 0, 0, 0, 0, 0, 0],
        Except.ok ()⟩
     out1.result = Except.ok ⟨258, 772, 1286, 1800⟩ ∧
     ⟨258, 772, 1286, 1800⟩ ≠ (⟨0, 0, 0, 0⟩ : AnalogValues) ∧
     out2.result = Except.ok ⟨0, 0, 0, 0⟩ ∧
     out2.state.read
       = Except.error (ViewerBackendError.ParserError "no values read yet")) := by
  exact ⟨rfl, by decide, rfl, rfl⟩

/-- C6 (amended): after any `poll` that returns a committed reading as
a success, `read()` on the resulting state succeeds with exactly that
reading if and only if it is not the all-zero sentinel; in particular a
later successful poll that commits the all-zero reading makes `read()`
fail again. -/
theorem C6_read_after_successful_poll (s : ViewerBackend) (env : NetEnv)
    (v : AnalogValues)
    (h : (s.poll env).result = Except.ok v) :
    (s.poll env).state.analog_vals = v ∧
    ((s.poll env).state.read = Except.ok v ↔ v ≠ ⟨0, 0, 0, 0⟩) := by
  have hv : (s.poll env).state.analog_vals = v := by
    obtain ⟨n, ise, pse, rr, rc⟩ := env
    by_cases hrate : n - s.last_poll < POLL_DELAY
    · simp [ViewerBackend.poll, hrate] at h ⊢
      exact h
    · rcases hi : s.initialized with _ | _ <;>
        rcases ise with e0 | u0 <;>
        rcases pse with e1 | u1 <;>
        rcases rr with e2 | payload <;>
        rcases rc with e3 | u3 <;>
        simp [ViewerBackend.poll, ViewerBackend.pollInit, ViewerBackend.pollNet,
              hrate, hi] at h ⊢ <;>
        exact h
  refine ⟨hv, ?_⟩
  rcases read_spec (s.poll env).state with ⟨h0, hr⟩ | ⟨h0, hr⟩
  · rw [hv] at h0
    simp [hr, h0]
  · rw [hv] at h0 hr
    simp [hr, h0]

/-- Witness for C6 (amended) at a concrete successful poll committing a
non-sentinel reading. -/
theorem C6_read_after_successful_poll_witness :
    (ViewerBackend.poll ⟨⟨0, 0, 0, 0⟩, 0, 0, 0, true⟩
        ⟨5, Except.ok (), Except.ok (), Except.ok [1, 2, 3, 4, 5, 6, 7, 8],
         Except.ok ()⟩).state.analog_vals = ⟨258, 772, 1286, 1800⟩ ∧
    ((ViewerBackend.poll ⟨⟨0, 0, 0, 0⟩, 0, 0, 0, true⟩
        ⟨5, Except.ok (), Except.ok (), Except.ok [1, 2, 3, 4, 5, 6, 7, 8],
         Except.ok ()⟩).state.read = Except.ok ⟨258, 772, 1286, 1800⟩
      ↔ (⟨258, 772, 1286, 1800⟩ : AnalogValues) ≠ ⟨0, 0, 0, 0⟩) :=
  C6_read_after_successful_poll ⟨⟨0, 0, 0, 0⟩, 0, 0, 0, true⟩
    ⟨5, Except.ok (), Except.ok (), Except.ok [1, 2, 3, 4, 5, 6, 7, 8],
     Except.ok ()⟩ ⟨258, 772, 1286, 1800⟩ rfl

/-- Once initialized, a single `poll` never emits an init request and
leaves the initialized flag set. -/
theorem initialized_poll_no_init (s : ViewerBackend) (env : NetEnv)
    (h : s.initialized = true) :
    (s.poll env).state.initialized = true ∧
    NetAction.sendInit ∉ (s.poll env).actions := by
  obtain ⟨n, ise, pse, rr, rc⟩ := env
  by_cases hrate : n - s.last_poll < POLL_DELAY
  · simp [ViewerBackend.poll, hrate, h]
  · rcases pse with e1 | u1 <;>
      rcases rr with e2 | payload <;>
      rcases rc with e3 | u3 <;>
      simp [ViewerBackend.poll, ViewerBackend.pollInit, ViewerBackend.pollNet,
            hrate, h]

/-- Once initialized, no call along any subsequent sequence of `poll`
invocations ever emits an init request, and the flag stays set. -/
theorem initialized_trace_no_init (envs : List NetEnv) :
    ∀ s : ViewerBackend, s.initialized = true →
      (s.pollTrace envs).1.initialized = true ∧
      ∀ acts ∈ (s.pollTrace envs).2, NetAction.sendInit ∉ acts := by
  induction envs with
  | nil =>
    intro s h
    simp [ViewerBackend.pollTrace, h]
  | cons env rest ih =>
    intro s h
    have h1 := initialized_poll_no_init s env h
    have h2 := ih (s.poll env).state h1.1
    refine ⟨by simpa [ViewerBackend.pollTrace] using h2.1, ?_⟩
    intro acts hmem
    simp [ViewerBackend.pollTrace] at hmem
    rcases hmem with hmem | hmem
    · exact hmem ▸ h1.2
    · exact h2.2 acts hmem

/-- C7: from the `Uninitialized` state a non-rate-limited `poll` emits
exactly one init request, and emits it first (before the poll request);
an init-send failure aborts the call with that transport error and
leaves the state unchanged (still uninitialized); an init-send success
sets the initialized flag no matter how the rest of the call goes; and
once initialized, no subsequent `poll` ever emits an init request. -/
theorem C7_init_handshake (s : ViewerBackend) (env : NetEnv)
    (envs : List NetEnv)
    (hrate : ¬ (env.now - s.last_poll < POLL_DELAY)) :
    (s.initialized = false →
      (s.poll env).actions.count NetAction.sendInit = 1 ∧
      (s.poll env).actions.head? = some NetAction.sendInit) ∧
    (∀ e, s.initialized = false → env.initSend = Except.error e →
      (s.poll env).result = Except.error (ViewerBackendError.SocketError e) ∧
      (s.poll env).state = s) ∧
    (s.initialized = false → env.initSend = Except.ok () →
      (s.poll env).state.initialized = true) ∧
    (s.initialized = true →
      (s.pollTrace (env :: envs)).1.initialized = true ∧
      ∀ acts ∈ (s.pollTrace (env :: envs)).2, NetAction.sendInit ∉ acts) := by
  refine ⟨?_, ?_, ?_, fun h => initialized_trace_no_init (env :: envs) s h⟩
  · intro h
    obtain ⟨n, ise, pse, rr, rc⟩ := env
    simp only at hrate
    rcases ise with e0 | u0 <;>
      rcases pse with e1 | u1 <;>
      rcases rr with e2 | payload <;>
      rcases rc with e3 | u3 <;>
      simp [ViewerBackend.poll, ViewerBackend.pollInit, ViewerBackend.pollNet,
            hrate, h, List.count_cons, List.count_append]
  · intro e h he
    obtain ⟨n, ise, pse, rr, rc⟩ := env
    simp only at hrate he
    subst he
    rcases pse with e1 | u1 <;>
      rcases rr with e2 | payload <;>
      rcases rc with e3 | u3 <;>
      simp [ViewerBackend.poll, ViewerBackend.pollInit, ViewerBackend.pollNet,
            hrate, h]
  · intro h he
    obtain ⟨n, ise, pse, rr, rc⟩ := env
    simp only at hrate he
    subst he
    rcases pse with e1 | u1 <;>
      rcases rr with e2 | payload <;>
      rcases rc with e3 | u3 <;>
      simp [ViewerBackend.poll, ViewerBackend.pollInit, ViewerBackend.pollNet,
            hrate, h]

/-- Witness for C7 at a concrete uninitialized state, a successful
environment and an empty continuation trace. -/
theorem C7_init_handshake_witness :
    (((⟨⟨0, 0, 0, 0⟩, 0, 0, 0, false⟩ : ViewerBackend).initialized = false →
      (ViewerBackend.poll ⟨⟨0, 0, 0, 0⟩, 0, 0, 0, false⟩
          ⟨5, Except.ok (), Except.ok (), Except.ok [0, 1, 0, 2, 0, 3, 0, 4],
           Except.ok ()⟩).actions.count NetAction.sendInit = 1 ∧
      (ViewerBackend.poll ⟨⟨0, 0, 0, 0⟩, 0, 0, 0, false⟩
          ⟨5, Except.ok (), Except.ok (), Except.ok [0, 1, 0, 2, 0, 3, 0, 4],
           Except.ok ()⟩).actions.head? = some NetAction.sendInit) ∧
    (∀ e, (⟨⟨0, 0, 0, 0⟩, 0, 0, 0, false⟩ : ViewerBackend).initialized = false →
      (⟨5, Except.ok (), Except.ok (), Except.ok [0, 1, 0, 2, 0, 3, 0, 4],
        Except.ok ()⟩ : NetEnv).initSend = Except.error e →
      (ViewerBackend.poll ⟨⟨0, 0, 0, 0⟩, 0, 0, 0, false⟩
          ⟨5, Except.ok (), Except.ok (), Except.ok [0, 1, 0, 2, 0, 3, 0, 4],
           Except.ok ()⟩).result = Except.error (ViewerBackendError.SocketError e) ∧
      (ViewerBackend.poll ⟨⟨0, 0, 0, 0⟩, 0, 0, 0, false⟩
          ⟨5, Except.ok (), Except.ok (), Except.ok [0, 1, 0, 2, 0, 3, 0, 4],
           Except.ok ()⟩).state = ⟨⟨0, 0, 0, 0⟩, 0, 0, 0, false⟩) ∧
    ((⟨⟨0, 0, 0, 0⟩, 0, 0, 0, false⟩ : ViewerBackend).initialized = false →
      (⟨5, Except.ok (), Except.ok (), Except.ok [0, 1, 0, 2, 0, 3, 0, 4],
        Except.ok ()⟩ : NetEnv).initSend = Except.ok () →
      (ViewerBackend.poll ⟨⟨0, 0, 0, 0⟩, 0, 0, 0, false⟩
          ⟨5, Except.ok (), Except.ok (), Except.ok [0, 1, 0, 2, 0, 3, 0, 4],
           Except.ok ()⟩).state.initialized = true) ∧
    ((⟨⟨0, 0, 0, 0⟩, 0, 0, 0, false⟩ : ViewerBackend).initialized = true →
      ((⟨⟨0, 0, 0, 0⟩, 0, 0, 0, false⟩ : ViewerBackend).pollTrace
          [⟨5, Except.ok (), Except.ok (), Except.ok [0, 1, 0, 2, 0, 3, 0, 4],
            Except.ok ()⟩]).1.initialized = true ∧
      ∀ acts ∈ ((⟨⟨0, 0, 0, 0⟩, 0, 0, 0, false⟩ : ViewerBackend).pollTrace
          [⟨5, Except.ok (), Except.ok (), Except.ok [0, 1, 0, 2, 0, 3, 0, 4],
            Except.ok ()⟩]).2, NetAction.sendInit ∉ acts)) :=
  C7_init_handshake ⟨⟨0, 0, 0, 0⟩, 0, 0, 0, false⟩
    ⟨5, Except.ok (), Except.ok (), Except.ok [0, 1, 0, 2, 0, 3, 0, 4],
     Except.ok ()⟩ [] (by decide)

end GaugeViewer
